import Mathlib

/-!
Verification development for the ollama-intent-recognition repository.

We shallowly embed the core logic of the repository in Lean:
* a JSON value model with a parser (`json_loads`, modelling Python's
  `json.loads` on the subset of JSON the system exchanges: null, booleans,
  integers, escape-free strings, arrays, objects) and a printer (`dumps`,
  modelling `json.dumps(..., ensure_ascii=False)` with default separators);
* `src/src/utils/evaluation_utils.py`: `extract_prediction`,
  `compute_confusion_matrix`, `compute_metrics`, `evaluate_model_predictions`
  (with ground-truth resolution factored into `resolve_gt`);
* `src/src/ollama_client/client.py`: the retry loop of `OllamaClient.generate`,
  instrumented to record the observable effects (slept delays, transport
  attempts used);
* `src/src/services/prompt_processor.py`:
  `PromptProcessorService.process_prompts` and `_save_summary`, over an explicit
  file-system state, with oracles injecting disk-write failures.

Python floats are modelled as rationals (ℚ); machine-level float rounding is
irrelevant to the properties proved here (equalities with 0 and doubling of
exactly-representable backoff delays).
-/

/-- JSON values (the subset exchanged by this system: no floats, no escape
sequences inside strings).  Python `None`/`True`/`False`/`int`/`str`/`list`/
`dict` map to the corresponding constructors; `dict` is modelled as an
insertion-ordered association list, as CPython preserves insertion order. -/
inductive Json where
  | null : Json
  | bool : Bool → Json
  | num : Int → Json
  | str : String → Json
  | arr : List Json → Json
  | obj : List (String × Json) → Json
deriving Repr

mutual
/-- Decidable equality on `Json` (the automatic deriving handler does not
support this nested inductive). -/
def Json.decEq : (a b : Json) → Decidable (a = b)
  | .null, .null => isTrue rfl
  | .null, .bool _ => isFalse (fun h => Json.noConfusion h)
  | .null, .num _ => isFalse (fun h => Json.noConfusion h)
  | .null, .str _ => isFalse (fun h => Json.noConfusion h)
  | .null, .arr _ => isFalse (fun h => Json.noConfusion h)
  | .null, .obj _ => isFalse (fun h => Json.noConfusion h)
  | .bool _, .null => isFalse (fun h => Json.noConfusion h)
  | .bool a, .bool b =>
      if h : a = b then isTrue (by rw [h]) else isFalse (fun e => h (by injection e))
  | .bool _, .num _ => isFalse (fun h => Json.noConfusion h)
  | .bool _, .str _ => isFalse (fun h => Json.noConfusion h)
  | .bool _, .arr _ => isFalse (fun h => Json.noConfusion h)
  | .bool _, .obj _ => isFalse (fun h => Json.noConfusion h)
  | .num _, .null => isFalse (fun h => Json.noConfusion h)
  | .num _, .bool _ => isFalse (fun h => Json.noConfusion h)
  | .num a, .num b =>
      if h : a = b then isTrue (by rw [h]) else isFalse (fun e => h (by injection e))
  | .num _, .str _ => isFalse (fun h => Json.noConfusion h)
  | .num _, .arr _ => isFalse (fun h => Json.noConfusion h)
  | .num _, .obj _ => isFalse (fun h => Json.noConfusion h)
  | .str _, .null => isFalse (fun h => Json.noConfusion h)
  | .str _, .bool _ => isFalse (fun h => Json.noConfusion h)
  | .str _, .num _ => isFalse (fun h => Json.noConfusion h)
  | .str a, .str b =>
      if h : a = b then isTrue (by rw [h]) else isFalse (fun e => h (by injection e))
  | .str _, .arr _ => isFalse (fun h => Json.noConfusion h)
  | .str _, .obj _ => isFalse (fun h => Json.noConfusion h)
  | .arr _, .null => isFalse (fun h => Json.noConfusion h)
  | .arr _, .bool _ => isFalse (fun h => Json.noConfusion h)
  | .arr _, .num _ => isFalse (fun h => Json.noConfusion h)
  | .arr _, .str _ => isFalse (fun h => Json.noConfusion h)
  | .arr a, .arr b =>
      match Json.decEqList a b with
      | isTrue h => isTrue (by rw [h])
      | isFalse h => isFalse (fun e => h (by injection e))
  | .arr _, .obj _ => isFalse (fun h => Json.noConfusion h)
  | .obj _, .null => isFalse (fun h => Json.noConfusion h)
  | .obj _, .bool _ => isFalse (fun h => Json.noConfusion h)
  | .obj _, .num _ => isFalse (fun h => Json.noConfusion h)
  | .obj _, .str _ => isFalse (fun h => Json.noConfusion h)
  | .obj _, .arr _ => isFalse (fun h => Json.noConfusion h)
  | .obj a, .obj b =>
      match Json.decEqFields a b with
      | isTrue h => isTrue (by rw [h])
      | isFalse h => isFalse (fun e => h (by injection e))

/-- Decidable equality on lists of `Json`. -/
def Json.decEqList : (a b : List Json) → Decidable (a = b)
  | [], [] => isTrue rfl
  | [], _ :: _ => isFalse (fun h => List.noConfusion h)
  | _ :: _, [] => isFalse (fun h => List.noConfusion h)
  | x :: xs, y :: ys =>
      match Json.decEq x y, Json.decEqList xs ys with
      | isTrue h1, isTrue h2 => isTrue (by rw [h1, h2])
      | isFalse h1, _ =>
          isFalse (fun h => h1 (by injection h with hh ht))
      | _, isFalse h2 =>
          isFalse (fun h => h2 (by injection h with hh ht))

/-- Decidable equality on lists of `Json` object fields. -/
def Json.decEqFields : (a b : List (String × Json)) → Decidable (a = b)
  | [], [] => isTrue rfl
  | [], _ :: _ => isFalse (fun h => List.noConfusion h)
  | _ :: _, [] => isFalse (fun h => List.noConfusion h)
  | (k, v) :: xs, (k', v') :: ys =>
      match String.decEq k k', Json.decEq v v', Json.decEqFields xs ys with
      | isTrue h0, isTrue h1, isTrue h2 => isTrue (by rw [h0, h1, h2])
      | isFalse h0, _, _ =>
          isFalse (fun h => by
            injection h with hh ht
            injection hh with hk hv
            exact h0 hk)
      | _, isFalse h1, _ =>
          isFalse (fun h => by
            injection h with hh ht
            injection hh with hk hv
            exact h1 hv)
      | _, _, isFalse h2 =>
          isFalse (fun h => h2 (by injection h with hh ht))
end

instance : DecidableEq Json := Json.decEq

/-- Association-list lookup, modelling Python `dict.get` / `dict[k]` /
`k in dict` (first binding wins; parsed dicts are built with `insertMap`,
which keeps keys unique, so this agrees with Python dict semantics). -/
def lookupMap {α β : Type} [DecidableEq α] : List (α × β) → α → Option β
  | [], _ => none
  | (k, v) :: rest, key => if k = key then some v else lookupMap rest key

/-- Association-list insertion, modelling Python `dict[k] = v`: replace the
binding in place if the key exists, otherwise append. -/
def insertMap {α β : Type} [DecidableEq α] : List (α × β) → α → β → List (α × β)
  | [], k, v => [(k, v)]
  | (k', v') :: rest, k, v =>
      if k' = k then (k, v) :: rest else (k', v') :: insertMap rest k v

/-- Python truthiness (`bool(x)`) for JSON values. -/
def Json.truthy : Json → Bool
  | .null => false
  | .bool b => b
  | .num n => n != 0
  | .str s => s ≠ ""
  | .arr xs => !xs.isEmpty
  | .obj fs => !fs.isEmpty

mutual
/-- Model of `json.dumps(v, ensure_ascii=False)` with the default separators
`", "` and `": "` (strings are assumed escape-free). -/
def Json.dumps : Json → String
  | .null => "null"
  | .bool true => "true"
  | .bool false => "false"
  | .num n => toString n
  | .str s => "\"" ++ s ++ "\""
  | .arr xs => "[" ++ Json.dumpsElems xs ++ "]"
  | .obj fs => "\x7b" ++ Json.dumpsFields fs ++ "\x7d"

/-- Comma-separated rendering of array elements. -/
def Json.dumpsElems : List Json → String
  | [] => ""
  | [x] => Json.dumps x
  | x :: y :: rest => Json.dumps x ++ ", " ++ Json.dumpsElems (y :: rest)

/-- Comma-separated rendering of object fields. -/
def Json.dumpsFields : List (String × Json) → String
  | [] => ""
  | [(k, v)] => "\"" ++ k ++ "\": " ++ Json.dumps v
  | (k, v) :: f :: rest =>
      "\"" ++ k ++ "\": " ++ Json.dumps v ++ ", " ++ Json.dumpsFields (f :: rest)
end

/-- A run of `n` spaces. -/
def spaces (n : Nat) : String := String.mk (List.replicate n ' ')

mutual
/-- Model of `json.dumps(v, ensure_ascii=False, indent=2)` at nesting indent
`ind` (the artifact formatting of the batch processor,
`prompt_processor.py` line 150): container items on their own lines, nesting
indented by two further spaces, separators `,` and `: `. -/
def Json.dumpsInd : Nat → Json → String
  | _, .null => "null"
  | _, .bool true => "true"
  | _, .bool false => "false"
  | _, .num n => toString n
  | _, .str s => "\"" ++ s ++ "\""
  | _, .arr [] => "[]"
  | ind, .arr (x :: xs) =>
      "[\n" ++ Json.dumpsIndElems (ind + 2) (x :: xs) ++ "\n" ++ spaces ind ++ "]"
  | _, .obj [] => "\x7b\x7d"
  | ind, .obj (f :: fs) =>
      "\x7b\n" ++ Json.dumpsIndFields (ind + 2) (f :: fs) ++ "\n" ++ spaces ind ++ "\x7d"

/-- Line-per-element rendering of array elements at indent `ind`. -/
def Json.dumpsIndElems : Nat → List Json → String
  | _, [] => ""
  | ind, [x] => spaces ind ++ Json.dumpsInd ind x
  | ind, x :: y :: rest =>
      spaces ind ++ Json.dumpsInd ind x ++ ",\n" ++ Json.dumpsIndElems ind (y :: rest)

/-- Line-per-field rendering of object fields at indent `ind`. -/
def Json.dumpsIndFields : Nat → List (String × Json) → String
  | _, [] => ""
  | ind, [(k, v)] => spaces ind ++ "\"" ++ k ++ "\": " ++ Json.dumpsInd ind v
  | ind, (k, v) :: f :: rest =>
      spaces ind ++ "\"" ++ k ++ "\": " ++ Json.dumpsInd ind v ++ ",\n" ++
        Json.dumpsIndFields ind (f :: rest)
end

/-- Model of `json.dumps(v, ensure_ascii=False, indent=2)`. -/
def Json.dumpsIndent (v : Json) : String := Json.dumpsInd 0 v

/-- Skip JSON whitespace. -/
def skipWs : List Char → List Char
  | [] => []
  | c :: cs => if c = ' ' ∨ c = '\n' ∨ c = '\t' ∨ c = '\r' then skipWs cs else c :: cs

/-- Parse the body of a JSON string after the opening quote: characters up to
the closing quote (escape sequences are outside the modelled subset). -/
def parseStrBody : List Char → Option (String × List Char)
  | [] => none
  | c :: cs =>
      if c = '"' then some ("", cs)
      else
        match parseStrBody cs with
        | some (s, rest) => some (String.mk (c :: s.data), rest)
        | none => none

/-- Split a leading run of decimal digits. -/
def takeDigits : List Char → List Char × List Char
  | [] => ([], [])
  | c :: cs =>
      if c.isDigit then
        let (ds, rest) := takeDigits cs
        (c :: ds, rest)
      else ([], c :: cs)

/-- Decimal value of a digit run. -/
def digitsToNat (ds : List Char) : Nat :=
  ds.foldl (fun n c => n * 10 + (c.toNat - 48)) 0

mutual
/-- Recursive-descent JSON value parser (fuel-indexed to bound recursion). -/
def parseValue : Nat → List Char → Option (Json × List Char)
  | 0, _ => none
  | fuel + 1, cs =>
      match skipWs cs with
      | [] => none
      | c :: rest =>
          if c = 'n' then
            match rest with
            | 'u' :: 'l' :: 'l' :: r => some (.null, r)
            | _ => none
          else if c = 't' then
            match rest with
            | 'r' :: 'u' :: 'e' :: r => some (.bool true, r)
            | _ => none
          else if c = 'f' then
            match rest with
            | 'a' :: 'l' :: 's' :: 'e' :: r => some (.bool false, r)
            | _ => none
          else if c = '"' then
            match parseStrBody rest with
            | some (s, r) => some (.str s, r)
            | none => none
          else if c = '-' then
            match takeDigits rest with
            | ([], _) => none
            | (ds, r) => some (.num (-(digitsToNat ds : Int)), r)
          else if c.isDigit then
            let (ds, r) := takeDigits (c :: rest)
            some (.num (digitsToNat ds), r)
          else if c = '\x7b' then
            match skipWs rest with
            | '\x7d' :: r => some (.obj [], r)
            | rest2 => parseFields fuel rest2 []
          else if c = '[' then
            match skipWs rest with
            | ']' :: r => some (.arr [], r)
            | rest2 => parseElems fuel rest2 []
          else none

/-- Parse the fields of a non-empty JSON object (after the opening brace).
Duplicate keys keep the last value, as in Python's `json.loads`. -/
def parseFields : Nat → List Char → List (String × Json) → Option (Json × List Char)
  | 0, _, _ => none
  | fuel + 1, cs, acc =>
      match skipWs cs with
      | '"' :: rest =>
          match parseStrBody rest with
          | some (k, r1) =>
              match skipWs r1 with
              | ':' :: r2 =>
                  match parseValue fuel r2 with
                  | some (v, r3) =>
                      match skipWs r3 with
                      | ',' :: r4 => parseFields fuel r4 (insertMap acc k v)
                      | '\x7d' :: r4 => some (.obj (insertMap acc k v), r4)
                      | _ => none
                  | none => none
              | _ => none
          | none => none
      | _ => none

/-- Parse the elements of a non-empty JSON array (after the opening bracket). -/
def parseElems : Nat → List Char → List Json → Option (Json × List Char)
  | 0, _, _ => none
  | fuel + 1, cs, acc =>
      match parseValue fuel cs with
      | some (v, r) =>
          match skipWs r with
          | ',' :: r2 => parseElems fuel r2 (acc ++ [v])
          | ']' :: r2 => some (.arr (acc ++ [v]), r2)
          | _ => none
      | none => none
end

/-- Model of Python `json.loads`: parse a complete JSON document (at most
trailing whitespace may remain), `none` when parsing raises.  The fuel
`2 * s.length + 2` dominates the recursion depth, which consumes at least one
character every two fuel units. -/
def json_loads (s : String) : Option Json :=
  match parseValue (2 * s.length + 2) s.data with
  | some (v, rest) => if skipWs rest = [] then some v else none
  | none => none

example : json_loads "\x7b\"has_command\": true\x7d" =
    some (.obj [("has_command", .bool true)]) := by decide

example : json_loads "hello" = none := by decide

example : Json.dumps (.obj [("dialog", .arr [.str "a"])]) =
    "\x7b\"dialog\": [\"a\"]\x7d" := by decide

/-! ## Scorer: `compute_confusion_matrix` and `compute_metrics`
(`src/src/utils/evaluation_utils.py`, lines 54-127) -/

/-- The 2×2 contingency table, as built by `compute_confusion_matrix`. -/
structure ConfusionMatrix where
  TP : Nat
  FP : Nat
  TN : Nat
  FN : Nat
deriving Repr, DecidableEq

/-- One iteration of the `for pred, gt in zip(predictions, ground_truth)` loop
body of `compute_confusion_matrix`. -/
def cmStep (cm : ConfusionMatrix) : Bool × Bool → ConfusionMatrix
  | (pred, gt) =>
    if pred ∧ gt then { cm with TP := cm.TP + 1 }
    else if pred ∧ ¬gt then { cm with FP := cm.FP + 1 }
    else if ¬pred ∧ gt then { cm with FN := cm.FN + 1 }
    else { cm with TN := cm.TN + 1 }

/-- Model of `compute_confusion_matrix(predictions, ground_truth)`: fold the
classification step over `zip(predictions, ground_truth)` starting from the
all-zero matrix. -/
def compute_confusion_matrix (predictions ground_truth : List Bool) : ConfusionMatrix :=
  (List.zip predictions ground_truth).foldl cmStep ⟨0, 0, 0, 0⟩

/-- Derived rates, as returned by `compute_metrics`.  Python floats are
modelled as rationals. -/
structure Metrics where
  accuracy : ℚ
  precision : ℚ
  «recall» : ℚ
  f1 : ℚ
deriving Repr, DecidableEq

/-- Model of `compute_metrics(confusion_matrix)`: accuracy, precision, recall and F1,
each guarded to be `0` when its denominator is not positive. -/
def compute_metrics (cm : ConfusionMatrix) : Metrics :=
  let TP : ℚ := cm.TP
  let FP : ℚ := cm.FP
  let TN : ℚ := cm.TN
  let FN : ℚ := cm.FN
  let total := TP + TN + FP + FN
  let accuracy := if total > 0 then (TP + TN) / total else 0
  let precision := if TP + FP > 0 then TP / (TP + FP) else 0
  let «recall» := if TP + FN > 0 then TP / (TP + FN) else 0
  let f1 := if precision + «recall» > 0 then 2 * (precision * «recall») / (precision + «recall») else 0
  ⟨accuracy, precision, «recall», f1⟩

/-! ## Label resolution and `evaluate_model_predictions`
(`src/src/utils/evaluation_utils.py`, lines 14-51 and 130-297) -/

/-- Model of `extract_prediction(response)`: parse the response as JSON; if
it is a non-empty array whose first element is an object with a
`has_command` field, return that field; else if it is an object with a
`has_command` field, return it (the nested `for key, value in
json_data.items()` scan in the source can only re-find the same field and is
subsumed); otherwise — including when parsing raises — return Python
`False`.  Python `None` is the decoded JSON `null` and is represented by
`Json.null`: the function returns `None` exactly when the located
`has_command` field holds JSON null, and the caller's `if pred is None:
continue` (line 176) then skips the record. -/
def extract_prediction (response : String) : Json :=
  match json_loads response with
  | none => Json.bool false
  | some jd =>
    let fromArr : Option Json :=
      match jd with
      | .arr (first :: _) =>
          match first with
          | .obj fs => lookupMap fs "has_command"
          | _ => none
      | _ => none
    match fromArr with
    | some v => v
    | none =>
      match jd with
      | .obj fs =>
          match lookupMap fs "has_command" with
          | some v => v
          | none => Json.bool false
      | _ => Json.bool false

/-- The `gt_map` built by `evaluate_model_predictions` from a loaded dataset:
for each dataset entry that is an object with both a `dialog` and a
`has_command` field, map the canonical serialization of
`{"dialog": entry["dialog"]}` to `entry.get("has_command", False)`. -/
def build_gt_map (dataset : List Json) : List (String × Json) :=
  dataset.foldl
    (fun m item =>
      match item with
      | .obj fs =>
          match lookupMap fs "dialog" with
          | some d =>
              match lookupMap fs "has_command" with
              | some hc => insertMap m (Json.dumps (.obj [("dialog", d)])) hc
              | none => m
          | none => m
      | _ => m)
    []

mutual
/-- Python `==` on decoded JSON values: structural, with dict comparison
insensitive to key order (equal key sets — parsed dicts have unique keys —
and pairwise-equal values); list comparison is order-sensitive. -/
def pyEq : Json → Json → Bool
  | .null, .null => true
  | .bool a, .bool b => a == b
  | .num a, .num b => a == b
  | .str a, .str b => a == b
  | .arr a, .arr b => pyEqList a b
  | .obj a, .obj b => a.length == b.length && pyEqFieldsSub a b
  | _, _ => false

/-- Elementwise Python `==` on lists. -/
def pyEqList : List Json → List Json → Bool
  | [], [] => true
  | x :: xs, y :: ys => pyEq x y && pyEqList xs ys
  | _, _ => false

/-- Every field of the first dict appears in the second with a `==` value. -/
def pyEqFieldsSub : List (String × Json) → List (String × Json) → Bool
  | [], _ => true
  | (k, v) :: rest, other =>
      (match lookupMap other k with
       | some v2 => pyEq v v2
       | none => false) && pyEqFieldsSub rest other
end

/-- Python `==` lifted to `dict.get` results: `None == None` is `True`,
`None` differs from every value. -/
def pyEqOpt : Option Json → Option Json → Bool
  | none, none => true
  | some a, some b => pyEq a b
  | _, _ => false

/-- Python `None` and decoded JSON `null` are the same value, so a strategy
that assigns `null` to `gt` leaves every later `gt is None` test true:
resolution falls through to the next strategy exactly as if nothing had been
found. -/
def denull : Option Json → Option Json
  | some Json.null => none
  | x => x

/-- The fallback scan of `gt_map.items()` comparing parsed `dialog` values
(`evaluate_model_predictions`, lines 202-211): the first entry whose key
parses to an object whose `dialog` value is Python-`==` to the prompt's
parsed `dialog` value wins (and the `break` stops the scan there); entries
where either side fails to parse as an object are skipped (`except:
continue`).  `.get` of an absent `dialog` gives `None` on both sides, and
`None == None` holds, which `pyEqOpt` models. -/
def structuralFind (gtMap : List (String × Json)) (promptParsed : Option Json) : Option Json :=
  match gtMap with
  | [] => none
  | (k, v) :: rest =>
      match json_loads k, promptParsed with
      | some (.obj ofs), some (.obj pfs) =>
          if pyEqOpt (lookupMap ofs "dialog") (lookupMap pfs "dialog") then some v
          else structuralFind rest promptParsed
      | _, _ => structuralFind rest promptParsed

/-- Ground-truth resolution for one record (`evaluate_model_predictions`,
lines 180-226), returning `some gt` when any of the three strategies in the
source leaves `gt` non-`None`, and `none` when the record falls to the
default (`gt is None`) branch:
1. parse the prompt itself and read its `has_command` field (legacy format);
2. if `gt_map` is non-empty, look the prompt's raw text up in `gt_map`,
   falling back to the structural `dialog` comparison scan;
3. if the dataset is non-empty and `prompt_id <= len(dataset)`, index the
   dataset positionally by `prompt_id - 1` and read `has_command`.
A strategy that finds a JSON-null flag sets `gt = None`, so `denull` makes
it fall through (for the structural scan the `break` has already stopped the
scan, so the null collapses the whole strategy, not just one entry). -/
def resolve_gt (gtMap : List (String × Json)) (dataset : List Json)
    (prompt : String) (prompt_id : Int) : Option Json :=
  let embedded : Option Json :=
    denull (match json_loads prompt with
            | some (.obj fs) => lookupMap fs "has_command"
            | _ => none)
  match embedded with
  | some g => some g
  | none =>
    let fromMap : Option Json :=
      if gtMap ≠ [] then
        match denull (lookupMap gtMap prompt) with
        | some g => some g
        | none => denull (structuralFind gtMap (json_loads prompt))
      else none
    match fromMap with
    | some g => some g
    | none =>
      if dataset ≠ [] ∧ prompt_id ≤ (dataset.length : Int) then
        let dataset_idx := prompt_id - 1
        if 0 ≤ dataset_idx ∧ dataset_idx < (dataset.length : Int) then
          denull (match dataset.get? dataset_idx.toNat with
                  | some (.obj fs) => lookupMap fs "has_command"
                  | _ => none)
        else none
      else none

/-- One element of the `summary` list passed to `evaluate_model_predictions`:
`item.get("prompt_id", i+1)`, `item.get("prompt", "")`,
`item.get("response", "")`. -/
structure SummaryItem where
  prompt_id : Option Int
  prompt : String
  response : String
deriving Repr, DecidableEq

/-- A record of `valid_samples` after classification: the mutations
`item["prediction"]`, `item["ground_truth"]`, `item["category"]` performed by
`evaluate_model_predictions`. -/
structure ScoredSample where
  item : SummaryItem
  prediction : Json
  ground_truth : Json
  category : String
deriving Repr, DecidableEq

/-- The `for i, item in enumerate(summary)` loop of
`evaluate_model_predictions` (lines 169-259), accumulating the `predictions`
and `ground_truth` lists (as the truth values the later `zip` classification
tests) and `valid_samples`.  A record whose extracted prediction is Python
`None` (a JSON-null `has_command`) is skipped entirely (line 176's
`continue`).  A record whose ground truth resolves gets the four-way
category; one that falls to the default branch gets ground truth `False` and
category `FP`/`TN`. -/
def eval_loop (gtMap : List (String × Json)) (dataset : List Json) :
    Nat → List SummaryItem → List Bool × List Bool × List ScoredSample
  | _, [] => ([], [], [])
  | i, item :: rest =>
    let pid := item.prompt_id.getD ((i : Int) + 1)
    let pred := extract_prediction item.response
    if pred = Json.null then eval_loop gtMap dataset (i + 1) rest
    else
      let (ps, gs, vs) := eval_loop gtMap dataset (i + 1) rest
      match resolve_gt gtMap dataset item.prompt pid with
      | some gt =>
          let category :=
            if pred.truthy ∧ gt.truthy then "TP"
            else if pred.truthy ∧ ¬gt.truthy then "FP"
            else if ¬pred.truthy ∧ gt.truthy then "FN"
            else "TN"
          (pred.truthy :: ps, gt.truthy :: gs, ⟨item, pred, gt, category⟩ :: vs)
      | none =>
          let category := if pred.truthy then "FP" else "TN"
          (pred.truthy :: ps, false :: gs,
           ⟨item, pred, Json.bool false, category⟩ :: vs)

/-- Result of `evaluate_model_predictions`. -/
structure EvalResult where
  metrics : Metrics
  confusion_matrix : ConfusionMatrix
  valid_samples : Nat
  total_samples : Nat
  samples : List ScoredSample
deriving Repr, DecidableEq

/-- Model of `evaluate_model_predictions(summary, dataset_file)`.  The `dataset`
argument stands for the parsed content of `dataset_file`; passing `[]` models
both "no dataset file" and "dataset failed to load" (in either case `gt_map`
is empty and the positional strategy is disabled, exactly as in the source). -/
def evaluate_model_predictions (summary : List SummaryItem) (dataset : List Json) :
    EvalResult :=
  let gtMap := build_gt_map dataset
  let (predictions, ground_truth, valid_samples) := eval_loop gtMap dataset 0 summary
  if predictions = [] then
    ⟨⟨0, 0, 0, 0⟩, ⟨0, 0, 0, 0⟩, 0, summary.length, []⟩
  else
    let cm := compute_confusion_matrix predictions ground_truth
    ⟨compute_metrics cm, cm, valid_samples.length, summary.length, valid_samples⟩

example :
    (evaluate_model_predictions
      [⟨none, "hello", "\x7b\"has_command\": true\x7d"⟩] []).confusion_matrix =
    ⟨0, 1, 0, 0⟩ := by decide

/-! ## Client: the retry loop of `OllamaClient.generate`
(`src/src/ollama_client/client.py`, lines 75-186 and 384-418) -/

/-- Outcome of one transport attempt (`requests.post` +
`response.raise_for_status()` + `response.json()`): either a
`requests.exceptions.RequestException` carrying a message (connection error or
non-2xx status), or a parsed HTTP-successful reply body. -/
inductive TransportOutcome where
  | ok : Json → TransportOutcome
  | exc : String → TransportOutcome

/-- A Python value as returned by `generate`: a JSON-representable value, or
`None` (the implicit return when the `for` loop body never runs). -/
inductive PyVal where
  | json : Json → PyVal
  | pynone : PyVal
deriving Repr, DecidableEq

/-- How a call to `generate` terminates: a normal `return`, a raised
`OllamaException` carrying a message, or an uncaught Python `TypeError`
escaping the reply-shape guard (only `requests.exceptions.RequestException`
is caught by the retry loop). -/
inductive GenOutcome where
  | ret : PyVal → GenOutcome
  | raise : String → GenOutcome
  | typeError : GenOutcome
deriving Repr, DecidableEq

/-- Trace of one `generate` call: its termination, the sequence of delays
passed to `time.sleep` (in order), and the number of transport attempts
performed. -/
structure GenTrace where
  outcome : GenOutcome
  delays : List ℚ
  attemptsUsed : Nat
deriving Repr, DecidableEq

/-- The message list built by `generate` (lines 108-122): optional system
message (only when `system_prompt` is truthy) followed by the user message. -/
def build_messages (system_prompt : Option String) (prompt : String) :
    List (String × String) :=
  (match system_prompt with
   | some sp => if sp ≠ "" then [("system", sp)] else []
   | none => []) ++ [("user", prompt)]

/-- Python `key in x`: key test for dicts, element test for lists, substring
test for strings; applied to any other value (`None`, numbers, booleans) it
raises `TypeError`, modelled as `none`. -/
def pyContains (x : Json) (key : String) : Option Bool :=
  match x with
  | .obj fs => some (lookupMap fs key).isSome
  | .arr xs => some (xs.contains (Json.str key))
  | .str s => some (if key = "" then true else (s.splitOn key).length ≥ 2)
  | _ => none

/-- Python `x[key]` with a string key: the value for dicts; for every other
type (lists and strings index by integers only) it raises `TypeError`,
modelled as `none`. -/
def pySubscript (x : Json) (key : String) : Option Json :=
  match x with
  | .obj fs => lookupMap fs key
  | _ => none

/-- Outcome of the line-160 guard
`"message" in result and "content" in result["message"]` followed by
`result["message"]["content"]`: the content when the guard passes, `missing`
when the guard evaluates cleanly to `False` (→ the empty-string sentinel),
and `typeError` when an `in` test or subscript hits a non-container (e.g. a
body of `null`, `{"message": null}` or `{"message": 5}`) — that `TypeError`
is not caught by the retry loop's `except` and propagates. -/
inductive ContentLookup where
  | found : Json → ContentLookup
  | missing : ContentLookup
  | typeError : ContentLookup
deriving Repr, DecidableEq

/-- Model of `result["message"]["content"]` with its line-160 guard,
including the uncaught `TypeError` paths. -/
def messageContent (result : Json) : ContentLookup :=
  match pyContains result "message" with
  | none => .typeError
  | some false => .missing
  | some true =>
      match pySubscript result "message" with
      | none => .typeError
      | some m =>
          match pyContains m "content" with
          | none => .typeError
          | some false => .missing
          | some true =>
              match pySubscript m "content" with
              | none => .typeError
              | some c => .found c

/-- Model of `OllamaClient._apply_precision_bias(content, precision_bias)` (lines
384-418).  `content` is whatever JSON value was extracted from the reply; when
it is not a string, `json.loads(content)` raises and the `except` branch
returns the content unchanged, as does any parse failure or non-object parse. -/
def apply_precision_bias (content : Json) (precision_bias : ℚ) : Json :=
  if precision_bias = 0 ∨ ¬content.truthy then content
  else
    match content with
    | .str s =>
        match json_loads s with
        | some (.obj fs) =>
            match lookupMap fs "has_command" with
            | some hc =>
                if precision_bias > 0 ∧ hc.truthy then
                  if precision_bias > 8/10 ∨
                      (precision_bias > 3/10 ∧ (lookupMap fs "dialog").isSome) then
                    .str (Json.dumps (.obj (insertMap fs "has_command" (.bool false))))
                  else content
                else if precision_bias < 0 ∧ ¬hc.truthy then
                  if precision_bias < -(8/10) ∨
                      (precision_bias < -(3/10) ∧ (lookupMap fs "dialog").isSome) then
                    .str (Json.dumps (.obj (insertMap fs "has_command" (.bool true))))
                  else content
                else content
            | none => content
        | _ => content
    | _ => content

/-- The error message raised after exhausting retries (line 180):
`f"API调用错误(重试 {retry_count} 次后): {e}"`. -/
def retryErrMsg (retry_count : Int) (e : String) : String :=
  "API调用错误(重试 " ++ toString retry_count ++ " 次后): " ++ e

/-- The `for attempt in range(retry_count)` retry loop of `generate` (lines
145-186), over the list of remaining attempt indices.  Per attempt: on
transport success, return the full result (`return_full_response`) or the
extracted (possibly bias-adjusted) `message.content`, falling back to the
empty-string sentinel when the field guard evaluates to `False` and letting
the guard's `TypeError` escape when it hits a non-container; on a
`RequestException`, sleep `retry_delay * 2 ** attempt` and retry while
`attempt < retry_count - 1`, otherwise surface the last failure — as
`{"error": str(e)}` when `return_full_response`, else by raising
`OllamaException`. -/
def generateLoop (return_full_response : Bool) (precision_bias : ℚ)
    (retry_count : Int) (retry_delay : ℚ) (transport : Nat → TransportOutcome) :
    List Nat → GenTrace
  | [] => ⟨.ret .pynone, [], 0⟩
  | attempt :: rest =>
    match transport attempt with
    | .ok result =>
        if return_full_response then ⟨.ret (.json result), [], 1⟩
        else
          match messageContent result with
          | .found content =>
              let content :=
                if precision_bias ≠ 0 ∧ content.truthy then
                  apply_precision_bias content precision_bias
                else content
              ⟨.ret (.json content), [], 1⟩
          | .missing => ⟨.ret (.json (.str "")), [], 1⟩
          | .typeError => ⟨.typeError, [], 1⟩
    | .exc e =>
        if (attempt : Int) < retry_count - 1 then
          let t := generateLoop return_full_response precision_bias retry_count
            retry_delay transport rest
          ⟨t.outcome, retry_delay * ((2 ^ attempt : ℕ) : ℚ) :: t.delays,
           t.attemptsUsed + 1⟩
        else if return_full_response then
          ⟨.ret (.json (.obj [("error", .str e)])), [], 1⟩
        else ⟨.raise (retryErrMsg retry_count e), [], 1⟩

/-- Model of `OllamaClient.generate`, reduced to its observable retry behaviour: the
payload construction does not influence control flow and is abstracted into
the `transport` oracle (attempt index ↦ outcome of the HTTP round-trip). -/
def generate (return_full_response : Bool) (precision_bias : ℚ)
    (retry_count : Int) (retry_delay : ℚ) (transport : Nat → TransportOutcome) :
    GenTrace :=
  generateLoop return_full_response precision_bias retry_count retry_delay transport
    (List.range retry_count.toNat)

example :
    (generate false 0 3 1 (fun _ => TransportOutcome.exc "boom")).outcome =
    .raise (retryErrMsg 3 "boom") := by decide

example :
    (generate false 0 3 1 (fun _ => TransportOutcome.exc "boom")).attemptsUsed = 3 := by
  decide

example :
    (generate true 0 2 1 (fun _ => TransportOutcome.exc "boom")).outcome =
    .ret (.json (.obj [("error", .str "boom")])) := by decide

example :
    generate false 0 2 1 (fun _ => TransportOutcome.ok (.obj [])) =
    ⟨.ret (.json (.str "")), [], 1⟩ := by decide

/-! ## Batch processor: `PromptProcessorService.process_prompts` and
`_save_summary` (`src/src/services/prompt_processor.py`), together with the
helpers `get_existing_responses`, `compute_prompt_hash` (abstracted as a
`hash` parameter) and `extract_json_from_text` from
`src/src/utils/file_utils.py`.

Artifact files `response_{prompt_id}_{hash}.json` are keyed by the pair
`(prompt_id, hash)`.  Disk-write failures are injected through the oracles
`artifactOk` (per artifact file) and `summaryOk` (for `summary.json`); the
model of the happy path instantiates both with `true`. -/

/-- The regex fallback of `extract_json_from_text`: the span of the text from
the first `'\x7b'` to the last `'\x7d'` (inclusive), when such a span exists
(the greedy match of `r'\x7b[\s\S]*\x7d'`). -/
def braceSpan (cs : List Char) : Option (List Char) :=
  let rest := cs.dropWhile (· ≠ '\x7b')
  let rev := rest.reverse.dropWhile (· ≠ '\x7d')
  if rev.isEmpty then none else some rev.reverse

/-- Model of `extract_json_from_text(text)` (`file_utils.py`, lines 109-140): parse the
whole text as JSON, else parse the first-brace-to-last-brace span, else
`None`. -/
def extract_json_from_text (text : String) : Option Json :=
  match json_loads text with
  | some j => some j
  | none =>
    match braceSpan text.data with
    | some cs => json_loads (String.mk cs)
    | none => none

/-- One entry of the run summary (the dict appended by `process_prompts`):
`prompt_id`, `prompt`, `response`, `output_file` (the artifact file key). -/
structure SummaryEntry where
  prompt_id : Int
  prompt : String
  response : String
  output_file : Int × String
deriving Repr, DecidableEq

/-- The durable state of the output directory: artifact files keyed by
`(prompt_id, hash)` with their text content, and the parsed content of
`summary.json` (`none` when absent). -/
structure FileSystem where
  files : List ((Int × String) × String)
  summaryFile : Option (List SummaryEntry)
deriving Repr, DecidableEq

/-- Model of `get_existing_responses(output_dir)` (`file_utils.py`, lines 17-45): map
each artifact file's hash (as parsed from its name) to the file, later files
overwriting earlier ones. -/
def get_existing_responses (files : List ((Int × String) × String)) :
    List (String × (Int × String)) :=
  files.foldl (fun m f => insertMap m f.1.2 f.1) []

/-- Python set insertion (`self.processed_ids.add(id)`), as a duplicate-free
list. -/
def insertSet {α : Type} [DecidableEq α] (l : List α) (x : α) : List α :=
  if x ∈ l then l else l ++ [x]

/-- The relevant switches of the global `settings` object
(`src/src/config/settings.py`; `save_raw_response` is fixed to its default
`False` — raw capture writes an extra file that is never read back and does
not interact with the properties proved here). -/
structure Settings where
  resume_from_checkpoint : Bool
  save_summary : Bool
deriving Repr, DecidableEq

/-- The in-flight state of one `process_prompts` run: the file system, the
in-memory `self.summary` and `self.processed_ids`, and the number of
`self.client.generate` calls made so far. -/
structure LoopState where
  files : List ((Int × String) × String)
  summaryFile : Option (List SummaryEntry)
  summary : List SummaryEntry
  processed : List Int
  calls : Nat
deriving Repr, DecidableEq

/-- Model of `PromptProcessorService._save_summary(summary_file)` (lines
202-213): the `open`/`json.dump` is wrapped in `try/except` — on failure the
error is only logged and the method returns normally with all in-memory
state intact.  `open(summary_file, "w")` truncates before `json.dump`
writes, so the on-disk checkpoint after a failure is *not* guaranteed
unchanged: it holds the previous content when `open` itself failed, and a
truncated, unparsable prefix when the dump failed midway (a later resumed
run's `json.load` then fails and it proceeds as if the checkpoint were
absent, which `none` models).  The oracle `failedCheckpoint` supplies
whichever of these states the failure produced. -/
def save_summary (summaryOk : Bool) (failedCheckpoint : Option (List SummaryEntry))
    (st : LoopState) : LoopState :=
  if summaryOk then { st with summaryFile := some st.summary }
  else { st with summaryFile := failedCheckpoint }

/-- The resume-by-artifact read (lines 95-118): when resume is on and the
prompt's hash has an existing artifact, read its content; a missing/unreadable
file (the `except` branch) behaves like a cache miss and falls through to the
client call. -/
def cached_response (resume : Bool) (existing : List (String × (Int × String)))
    (files : List ((Int × String) × String)) (h : String) :
    Option ((Int × String) × String) :=
  if resume then
    match lookupMap existing h with
    | some key => (lookupMap files key).map (fun c => (key, c))
    | none => none
  else none

/-- The `for i, prompt in enumerate(prompts)` loop of `process_prompts`
(lines 81-188).  Per prompt (1-based id `i+1`): skip if already in
`processed_ids`; else serve from an existing artifact when possible; else
call the client, store the response (re-serialized with `indent=2` when it
contains JSON), write the artifact and append to the summary.  A failed
artifact write is caught by the per-item `except` and the loop continues
with the next prompt — the client call has already happened, and since
`open(output_file, "w")` truncates before writing, the oracle `artifactFail`
supplies the resulting on-disk state (`none`: no file / previous state left
by a failed `open`; `some part`: a partial artifact left by a failed
write).  The checkpoint is saved after every appended item when
`save_summary` is on.  (`time.sleep(settings.delay)` is a pure no-op for
these properties and is not recorded.) -/
def processLoop (s : Settings) (hash : String → String) (client : String → String)
    (artifactOk : Int → String → Bool) (artifactFail : Int → String → Option String)
    (summaryOk : Bool) (failedCheckpoint : Option (List SummaryEntry))
    (existing : List (String × (Int × String))) :
    Nat → List String → LoopState → LoopState
  | _, [], st => st
  | i, prompt :: rest, st =>
    let prompt_id : Int := (i : Int) + 1
    if s.resume_from_checkpoint ∧ prompt_id ∈ st.processed then
      processLoop s hash client artifactOk artifactFail summaryOk failedCheckpoint
        existing (i + 1) rest st
    else
      let h := hash prompt
      match cached_response s.resume_from_checkpoint existing st.files h with
      | some (key, content) =>
          let st' : LoopState :=
            { st with
              summary := st.summary ++ [⟨prompt_id, prompt, content, key⟩],
              processed := insertSet st.processed prompt_id }
          let st'' := if s.save_summary then save_summary summaryOk failedCheckpoint st'
            else st'
          processLoop s hash client artifactOk artifactFail summaryOk failedCheckpoint
            existing (i + 1) rest st''
      | none =>
          let response := client prompt
          let stc := { st with calls := st.calls + 1 }
          let json_response := extract_json_from_text response
          let stored :=
            match json_response with
            | some j => if j.truthy then Json.dumpsIndent j else response
            | none => response
          let key := (prompt_id, h)
          if artifactOk prompt_id h then
            let st' : LoopState :=
              { stc with
                files := insertMap stc.files key stored,
                summary := stc.summary ++ [⟨prompt_id, prompt, stored, key⟩],
                processed := insertSet stc.processed prompt_id }
            let st'' := if s.save_summary then save_summary summaryOk failedCheckpoint st'
              else st'
            processLoop s hash client artifactOk artifactFail summaryOk failedCheckpoint
              existing (i + 1) rest st''
          else
            let stf :=
              match artifactFail prompt_id h with
              | some part => { stc with files := insertMap stc.files key part }
              | none => stc
            processLoop s hash client artifactOk artifactFail summaryOk failedCheckpoint
              existing (i + 1) rest stf

/-- The dict returned by `process_prompts` (lines 195-200); the constant
`summary_file`/`output_dir` paths are omitted. -/
structure RunResult where
  processed_count : Nat
  total_count : Nat
deriving Repr, DecidableEq

/-- Model of `PromptProcessorService.process_prompts(model_name, system_prompt,
prompts, output_dir)` on a fresh service instance: load the checkpoint and
the artifact index when resuming, run the loop, and save the final summary
when it is non-empty.  `hash` abstracts `compute_prompt_hash` (an MD5 prefix);
`client` abstracts a transport-successful `self.client.generate` (client
exceptions are claim C3's subject; the idempotence property concerns runs
whose items succeed). -/
def process_prompts (s : Settings) (hash : String → String)
    (client : String → String) (artifactOk : Int → String → Bool)
    (artifactFail : Int → String → Option String) (summaryOk : Bool)
    (failedCheckpoint : Option (List SummaryEntry)) (prompts : List String)
    (fs : FileSystem) : LoopState × RunResult :=
  let existing :=
    if s.resume_from_checkpoint then get_existing_responses fs.files else []
  let summary0 :=
    if s.resume_from_checkpoint then fs.summaryFile.getD [] else []
  let processed0 := summary0.foldl (fun acc e => insertSet acc e.prompt_id) []
  let st0 : LoopState := ⟨fs.files, fs.summaryFile, summary0, processed0, 0⟩
  let st := processLoop s hash client artifactOk artifactFail summaryOk failedCheckpoint
    existing 0 prompts st0
  let st' := if s.save_summary ∧ st.summary ≠ [] then
    save_summary summaryOk failedCheckpoint st else st
  (st', ⟨st'.processed.length, prompts.length⟩)

example :
    (process_prompts ⟨true, true⟩ (fun _ => "h") (fun _ => "r")
      (fun _ _ => true) (fun _ _ => none) true none ["a"] ⟨[], none⟩).1.calls = 1 := by
  decide

example :
    (process_prompts ⟨true, true⟩ (fun _ => "h") (fun _ => "r")
      (fun _ _ => true) (fun _ _ => none) true none ["a"] ⟨[], none⟩).1.summary =
    [⟨1, "a", "r", (1, "h")⟩] := by decide

/-! ## Helper lemmas -/

/-- Each `cmStep` increments exactly one cell: the four-cell sum of a fold
grows by the length of the folded list. -/
theorem cm_sum_foldl (l : List (Bool × Bool)) :
    ∀ cm : ConfusionMatrix,
      (l.foldl cmStep cm).TP + (l.foldl cmStep cm).FP +
        (l.foldl cmStep cm).TN + (l.foldl cmStep cm).FN =
      cm.TP + cm.FP + cm.TN + cm.FN + l.length := by
  induction l with
  | nil => intro cm; simp
  | cons p rest ih =>
      intro cm
      rcases p with ⟨pred, gt⟩
      rw [List.foldl_cons]
      rw [ih]
      cases pred <;> cases gt <;> simp [cmStep] <;> omega

/-- Lemma: `zip` only consumes the common prefix of its arguments. -/
theorem zip_eq_zip_take (ps : List Bool) :
    ∀ gs : List Bool,
      List.zip ps gs =
        List.zip (ps.take (min ps.length gs.length))
          (gs.take (min ps.length gs.length)) := by
  induction ps with
  | nil => intro gs; simp
  | cons p ps ih =>
      intro gs
      cases gs with
      | nil => simp
      | cons g gs =>
          simp only [List.zip_cons_cons, List.length_cons]
          rw [Nat.succ_min_succ, List.take_succ_cons, List.take_succ_cons,
            List.zip_cons_cons, ← ih gs]

/-- The `f1` field of `compute_metrics`, re-expressed through the returned
`precision` and `recall` fields. -/
theorem compute_metrics_f1_eq (cm : ConfusionMatrix) :
    (compute_metrics cm).f1 =
      if (compute_metrics cm).precision + (compute_metrics cm).«recall» > 0 then
        2 * ((compute_metrics cm).precision * (compute_metrics cm).«recall») /
          ((compute_metrics cm).precision + (compute_metrics cm).«recall»)
      else 0 := rfl

/-! ## Claim C5 -/

/-- Claim C5: for any set of scored records, the confusion matrix satisfies
`TP+FP+TN+FN` = number of records passed to the scorer, and each of accuracy,
precision, recall and f1 equals `0` (rather than faulting) whenever its
denominator is `0`. -/
theorem c5_confusion_totals_and_zero_denominators
    (ps gs : List Bool) (h : ps.length = gs.length) (cm : ConfusionMatrix) :
    ((compute_confusion_matrix ps gs).TP + (compute_confusion_matrix ps gs).FP +
      (compute_confusion_matrix ps gs).TN + (compute_confusion_matrix ps gs).FN =
      ps.length) ∧
    (cm.TP + cm.TN + cm.FP + cm.FN = 0 → (compute_metrics cm).accuracy = 0) ∧
    (cm.TP + cm.FP = 0 → (compute_metrics cm).precision = 0) ∧
    (cm.TP + cm.FN = 0 → (compute_metrics cm).«recall» = 0) ∧
    ((compute_metrics cm).precision + (compute_metrics cm).«recall» = 0 →
      (compute_metrics cm).f1 = 0) := by
  refine ⟨?_, ?_, ?_, ?_, ?_⟩
  · unfold compute_confusion_matrix
    rw [cm_sum_foldl]
    simp [List.length_zip, h]
  · intro h0
    obtain ⟨h1, h2, h3, h4⟩ : cm.TP = 0 ∧ cm.TN = 0 ∧ cm.FP = 0 ∧ cm.FN = 0 := by omega
    simp [compute_metrics, h1, h2, h3, h4]
  · intro h0
    obtain ⟨h1, h2⟩ : cm.TP = 0 ∧ cm.FP = 0 := by omega
    simp [compute_metrics, h1, h2]
  · intro h0
    obtain ⟨h1, h2⟩ : cm.TP = 0 ∧ cm.FN = 0 := by omega
    simp [compute_metrics, h1, h2]
  · intro h0
    rw [compute_metrics_f1_eq, if_neg]
    rw [h0]
    exact lt_irrefl 0

/-- Witness for C5 at a concrete input. -/
theorem c5_witness :
    ((compute_confusion_matrix [true] [false]).TP +
      (compute_confusion_matrix [true] [false]).FP +
      (compute_confusion_matrix [true] [false]).TN +
      (compute_confusion_matrix [true] [false]).FN = ([true] : List Bool).length) ∧
    (compute_metrics ⟨0, 0, 0, 0⟩).accuracy = 0 ∧
    (compute_metrics ⟨0, 0, 0, 0⟩).precision = 0 ∧
    (compute_metrics ⟨0, 0, 0, 0⟩).«recall» = 0 ∧
    (compute_metrics ⟨0, 0, 0, 0⟩).f1 = 0 := by
  obtain ⟨w1, w2, w3, w4, w5⟩ :=
    c5_confusion_totals_and_zero_denominators [true] [false] rfl ⟨0, 0, 0, 0⟩
  refine ⟨w1, w2 (by decide), w3 (by decide), w4 (by decide), w5 ?_⟩
  rw [w3 (by decide), w4 (by decide)]
  norm_num

/-! ## Claim C10 -/

/-- Claim C10: for every pair of lists `predictions` and `ground_truth`,
including lists of unequal length, `compute_confusion_matrix` returns counts
with `TP+FP+TN+FN = min (length predictions) (length ground_truth)`; elements
of the longer list beyond that length are silently ignored (the matrix equals
the one computed from the truncated lists). -/
theorem c10_confusion_truncates_to_min_length (ps gs : List Bool) :
    ((compute_confusion_matrix ps gs).TP + (compute_confusion_matrix ps gs).FP +
      (compute_confusion_matrix ps gs).TN + (compute_confusion_matrix ps gs).FN =
      min ps.length gs.length) ∧
    compute_confusion_matrix ps gs =
      compute_confusion_matrix (ps.take (min ps.length gs.length))
        (gs.take (min ps.length gs.length)) := by
  constructor
  · unfold compute_confusion_matrix
    rw [cm_sum_foldl]
    simp [List.length_zip]
  · unfold compute_confusion_matrix
    rw [← zip_eq_zip_take]

/-! ## Claim C9 -/

/-- Claim C9: for every call to the blocking generate operation with
`retry_count <= 0`, the retry loop body never executes (zero transport
attempts) and the call returns Python `None` — neither a reply string, nor
the empty sentinel, nor a raised exception. -/
theorem c9_nonpositive_retry_count_returns_none (rfr : Bool) (bias : ℚ)
    (rc : Int) (rd : ℚ) (transport : Nat → TransportOutcome) (h : rc ≤ 0) :
    generate rfr bias rc rd transport = ⟨.ret .pynone, [], 0⟩ := by
  unfold generate
  rw [Int.toNat_of_nonpos h]
  rfl

/-- Witness for C9 at `retry_count = 0`. -/
theorem c9_witness :
    generate false 0 0 1 (fun _ => TransportOutcome.exc "x") =
      ⟨.ret .pynone, [], 0⟩ :=
  c9_nonpositive_retry_count_returns_none false 0 0 1
    (fun _ => TransportOutcome.exc "x") (by decide)

/-! ## Claim C8 -/

/-- Counterexample to C8 as stated: an HTTP-successful reply whose body is
JSON `null` lacks the expected `message.content` fields, yet the blocking
generate operation does not return the empty-string sentinel — the guard
`"message" in result` raises an uncaught `TypeError` on the non-container
body. -/
theorem c8_counterexample_null_body_raises :
    (generate false 0 3 1 (fun _ => TransportOutcome.ok Json.null)).outcome =
      GenOutcome.typeError ∧
    (generate false 0 3 1 (fun _ => TransportOutcome.ok Json.null)).outcome ≠
      GenOutcome.ret (.json (.str "")) := by
  decide

/-- Amended claim C8: for an HTTP-successful reply (in the content-extracting
mode, `return_full_response = False`) whose `message.content` guard evaluates
cleanly to `False` — the body or its `message` value is a container without
the expected field — generate returns the empty-string sentinel immediately:
one transport attempt, no sleeps, no raise.  When the guard's `in` test or
subscript hits a non-container (body `null`, `message` null or a number), the
reply is likewise never retried, but an uncaught `TypeError` propagates
instead of the sentinel. -/
theorem c8_amended_malformed_reply_sentinel_or_typeerror (bias : ℚ) (rc : Int)
    (rd : ℚ) (transport : Nat → TransportOutcome) (result : Json) (h1 : 1 ≤ rc)
    (h2 : transport 0 = .ok result) :
    (messageContent result = .missing →
      generate false bias rc rd transport = ⟨.ret (.json (.str "")), [], 1⟩) ∧
    (messageContent result = .typeError →
      generate false bias rc rd transport = ⟨.typeError, [], 1⟩) := by
  obtain ⟨k, hk⟩ : ∃ k, rc.toNat = k + 1 := ⟨rc.toNat - 1, by omega⟩
  constructor
  · intro h3
    unfold generate
    rw [hk, List.range_eq_range', List.range'_succ]
    simp [generateLoop, h2, h3]
  · intro h3
    unfold generate
    rw [hk, List.range_eq_range', List.range'_succ]
    simp [generateLoop, h2, h3]

/-- Witness for the amended C8: a guard-miss body returns the sentinel; a
`null` body raises. -/
theorem c8_amended_witness :
    generate false 0 2 1 (fun _ => TransportOutcome.ok (.obj [("done", .bool true)])) =
      ⟨.ret (.json (.str "")), [], 1⟩ ∧
    generate false 0 2 1 (fun _ => TransportOutcome.ok Json.null) =
      ⟨.typeError, [], 1⟩ :=
  ⟨(c8_amended_malformed_reply_sentinel_or_typeerror 0 2 1
      (fun _ => TransportOutcome.ok (.obj [("done", .bool true)]))
      (.obj [("done", .bool true)]) (by decide) rfl).1 rfl,
   (c8_amended_malformed_reply_sentinel_or_typeerror 0 2 1
      (fun _ => TransportOutcome.ok Json.null) Json.null (by decide) rfl).2 rfl⟩

/-! ## Claim C7 -/

/-- Positions in the slept-delay list of the retry loop over attempt indices
`range' s cnt`: the `j`-th slept delay is `retry_delay * 2 ^ (s + j)`, for any
transport behaviour. -/
theorem generateLoop_delays_get (rfr : Bool) (bias : ℚ) (rc : Int) (rd : ℚ)
    (tr : Nat → TransportOutcome) :
    ∀ (cnt s j : Nat),
      j < (generateLoop rfr bias rc rd tr (List.range' s cnt)).delays.length →
      (generateLoop rfr bias rc rd tr (List.range' s cnt)).delays.get? j =
        some (rd * ((2 ^ (s + j) : ℕ) : ℚ)) := by
  intro cnt
  induction cnt with
  | zero =>
      intro s j hj
      simp [generateLoop] at hj
  | succ c ih =>
      intro s j hj
      rw [List.range'_succ] at hj ⊢
      simp only [generateLoop] at hj ⊢
      cases htr : tr s with
      | ok result =>
          rw [htr] at hj
          by_cases hrfr : rfr = true
          · simp [hrfr] at hj
          · cases hmc : messageContent result with
            | found content => simp [hrfr, hmc] at hj
            | missing => simp [hrfr, hmc] at hj
            | typeError => simp [hrfr, hmc] at hj
      | exc e =>
          rw [htr] at hj
          by_cases hlt : (s : Int) < rc - 1
          · simp only [hlt, if_true] at hj ⊢
            cases j with
            | zero => simp
            | succ j' =>
                simp only [List.get?_cons_succ]
                simp only [List.length_cons, Nat.succ_lt_succ_iff] at hj
                rw [ih (s + 1) j' hj]
                have harith : s + 1 + j' = s + (j' + 1) := by omega
                rw [harith]
          · by_cases hrfr : rfr = true
            · simp [hlt, hrfr] at hj
            · simp [hlt, hrfr] at hj

/-- Claim C7: every slept delay at retry position `r` equals
`retry_delay * 2 ^ r`, hence successive delays satisfy
`delay(r+1) = 2 * delay(r)`. -/
theorem c7_exponential_backoff (rfr : Bool) (bias : ℚ) (rc : Int) (rd : ℚ)
    (tr : Nat → TransportOutcome) (r : Nat)
    (h : r < (generate rfr bias rc rd tr).delays.length) :
    (generate rfr bias rc rd tr).delays.get ⟨r, h⟩ = rd * 2 ^ r ∧
    ∀ h2 : r + 1 < (generate rfr bias rc rd tr).delays.length,
      (generate rfr bias rc rd tr).delays.get ⟨r + 1, h2⟩ =
        2 * (generate rfr bias rc rd tr).delays.get ⟨r, h⟩ := by
  have key : ∀ (j : Nat) (hj : j < (generate rfr bias rc rd tr).delays.length),
      (generate rfr bias rc rd tr).delays.get ⟨j, hj⟩ = rd * 2 ^ j := by
    intro j hj
    have e : generate rfr bias rc rd tr =
        generateLoop rfr bias rc rd tr (List.range' 0 rc.toNat) := by
      rw [generate, List.range_eq_range']
    have hj' : j < (generateLoop rfr bias rc rd tr (List.range' 0 rc.toNat)).delays.length := by
      rw [← e]; exact hj
    have h2 : (generate rfr bias rc rd tr).delays.get? j =
        some (rd * ((2 ^ (0 + j) : ℕ) : ℚ)) := by
      rw [e]
      exact generateLoop_delays_get rfr bias rc rd tr rc.toNat 0 j hj'
    rw [List.get?_eq_get hj] at h2
    have h5 := Option.some.inj h2
    rw [h5]
    push_cast
    ring
  refine ⟨key r h, ?_⟩
  intro h2
  rw [key r h, key (r + 1) h2]
  ring

/-- Witness for C7: with three all-failing attempts and `retry_delay = 1`,
the first slept delay is `1 * 2 ^ 0` and the second is twice the first. -/
theorem c7_witness :
    (generate false 0 3 1 (fun _ => TransportOutcome.exc "e")).delays.get? 0 =
      some ((1 : ℚ) * 2 ^ 0) ∧
    (generate false 0 3 1 (fun _ => TransportOutcome.exc "e")).delays.get? 1 =
      some (2 * ((1 : ℚ) * 2 ^ 0)) := by
  have h0 : 0 < (generate false 0 3 1 (fun _ => TransportOutcome.exc "e")).delays.length := by
    decide
  have h1 : 0 + 1 < (generate false 0 3 1 (fun _ => TransportOutcome.exc "e")).delays.length := by
    decide
  obtain ⟨w0, w1⟩ :=
    c7_exponential_backoff false 0 3 1 (fun _ => TransportOutcome.exc "e") 0 h0
  constructor
  · rw [List.get?_eq_get h0, w0]
  · rw [List.get?_eq_get h1, w1 h1, w0]

/-! ## Claim C3 -/

/-- When every transport attempt fails, the retry loop over `range' s cnt`
(the tail of the attempt sequence, with `s + cnt = retry_count`) terminates
with the last failure: raising `OllamaException` in content mode, or
returning the `{"error": ...}` dict when `return_full_response` is set. -/
theorem generateLoop_allFail (rfr : Bool) (bias : ℚ) (rc : Int) (rd : ℚ)
    (errs : Nat → String) :
    ∀ (c s : Nat), ((s + (c + 1) : ℕ) : Int) = rc →
      (generateLoop rfr bias rc rd (fun i => TransportOutcome.exc (errs i))
          (List.range' s (c + 1))).outcome =
        if rfr then
          GenOutcome.ret (.json (.obj [("error", .str (errs (s + c)))]))
        else GenOutcome.raise (retryErrMsg rc (errs (s + c))) := by
  intro c
  induction c with
  | zero =>
      intro s hs
      have hlt : ¬((s : Int) < rc - 1) := by omega
      simp only [List.range'_succ, generateLoop, hlt, if_false]
      cases rfr <;> simp
  | succ c ih =>
      intro s hs
      have hlt : (s : Int) < rc - 1 := by
        push_cast at hs ⊢
        omega
      rw [List.range'_succ]
      rw [generateLoop]
      simp only [hlt, if_true]
      have := ih (s + 1) (by push_cast at hs ⊢; omega)
      rw [this]
      have harith : s + 1 + c = s + (c + 1) := by omega
      rw [harith]

/-- Amended claim C3: when `retry_count >= 1` and every attempt fails at the
transport level, the blocking generate operation surfaces the *last* failure:
it raises `OllamaException` when `return_full_response` is false, and returns
the `{"error": <last failure>}` dict when `return_full_response` is true — in
neither mode is the failure turned into a successful-looking reply. -/
theorem c3_amended_last_failure_surfaced (bias : ℚ) (rc : Int) (rd : ℚ)
    (errs : Nat → String) (h : 1 ≤ rc) :
    (generate false bias rc rd (fun i => TransportOutcome.exc (errs i))).outcome =
      GenOutcome.raise (retryErrMsg rc (errs (rc.toNat - 1))) ∧
    (generate true bias rc rd (fun i => TransportOutcome.exc (errs i))).outcome =
      GenOutcome.ret (.json (.obj [("error", .str (errs (rc.toNat - 1)))])) := by
  obtain ⟨c, hc⟩ : ∃ c, rc.toNat = c + 1 := ⟨rc.toNat - 1, by omega⟩
  have hcast : ((0 + (c + 1) : ℕ) : Int) = rc := by
    push_cast
    omega
  constructor
  · unfold generate
    rw [hc, List.range_eq_range']
    rw [generateLoop_allFail false bias rc rd errs c 0 hcast]
    simp [hc]
  · unfold generate
    rw [hc, List.range_eq_range']
    rw [generateLoop_allFail true bias rc rd errs c 0 hcast]
    simp [hc]

/-- Counterexample to C3 as stated: with `return_full_response = True` and
both attempts failing, the call does *not* raise — it returns the
`{"error": "boom"}` dict as a normal return value. -/
theorem c3_counterexample_full_response_swallows :
    (generate true 0 2 1 (fun _ => TransportOutcome.exc "boom")).outcome =
      GenOutcome.ret (.json (.obj [("error", .str "boom")])) ∧
    ∀ m, (generate true 0 2 1 (fun _ => TransportOutcome.exc "boom")).outcome ≠
      GenOutcome.raise m := by
  have h1 : (generate true 0 2 1 (fun _ => TransportOutcome.exc "boom")).outcome =
      GenOutcome.ret (.json (.obj [("error", .str "boom")])) := by decide
  refine ⟨h1, ?_⟩
  intro m hm
  rw [h1] at hm
  exact GenOutcome.noConfusion hm

/-- Witness for the amended C3 at a concrete input. -/
theorem c3_amended_witness :
    (generate false 0 2 1 (fun _ => TransportOutcome.exc "boom")).outcome =
      GenOutcome.raise (retryErrMsg 2 "boom") ∧
    (generate true 0 2 1 (fun _ => TransportOutcome.exc "boom")).outcome =
      GenOutcome.ret (.json (.obj [("error", .str "boom")])) :=
  c3_amended_last_failure_surfaced 0 2 1 (fun _ => "boom") (by decide)

/-! ## Claims C1 and C6 -/

/-- Abbreviation for the records line 176 keeps: those whose extracted
prediction is not Python `None`. -/
def extractedP (item : SummaryItem) : Bool :=
  decide (extract_prediction item.response ≠ Json.null)

/-- Every iteration of the evaluation loop contributes exactly one entry to
`predictions` and one to `valid_samples`, except the records skipped by line
176 (extracted prediction `None`). -/
theorem eval_loop_lengths (gtMap : List (String × Json)) (dataset : List Json) :
    ∀ (items : List SummaryItem) (i : Nat),
      (eval_loop gtMap dataset i items).1.length = items.countP extractedP ∧
      (eval_loop gtMap dataset i items).2.2.length = items.countP extractedP := by
  intro items
  induction items with
  | nil => intro i; simp [eval_loop]
  | cons item rest ih =>
      intro i
      obtain ⟨h1, h2⟩ := ih (i + 1)
      rw [List.countP_cons]
      by_cases hn : extract_prediction item.response = Json.null
      · have hb : extractedP item = false := by simp [extractedP, hn]
        simp only [eval_loop, if_pos hn, hb]
        simp [h1, h2]
      · have hb : extractedP item = true := by simp [extractedP, hn]
        simp only [eval_loop, if_neg hn, hb]
        cases hr : resolve_gt gtMap dataset item.prompt (item.prompt_id.getD ((i : Int) + 1)) with
        | none => simp [h1, h2]
        | some gt => simp [h1, h2]

/-- The count the spec's words prescribe for `valid_count`: the number of
records whose ground truth resolution succeeds via a non-DEFAULT path
(EMBEDDED, dataset exact/structural match, or positional lookup).  This is
the spec-side comparand for claim C1; it is *not* what the code computes. -/
def specNonDefaultResolvedCount (gtMap : List (String × Json)) (dataset : List Json) :
    Nat → List SummaryItem → Nat
  | _, [] => 0
  | i, item :: rest =>
      (if (resolve_gt gtMap dataset item.prompt
            (item.prompt_id.getD ((i : Int) + 1))).isSome then 1 else 0) +
        specNonDefaultResolvedCount gtMap dataset (i + 1) rest

/-- Counterexample to C1 as stated: a single record whose prompt is plain
text and with no dataset resolves via no strategy (DEFAULT path), yet
`evaluate_model_predictions` reports `valid_samples = 1`, not the `0`
non-DEFAULT resolutions the spec describes. -/
theorem c1_counterexample_default_record_counted_valid :
    (evaluate_model_predictions [⟨none, "hello", "x"⟩] []).valid_samples = 1 ∧
    specNonDefaultResolvedCount (build_gt_map []) [] 0 [⟨none, "hello", "x"⟩] = 0 ∧
    (evaluate_model_predictions [⟨none, "hello", "x"⟩] []).valid_samples ≠
      specNonDefaultResolvedCount (build_gt_map []) [] 0 [⟨none, "hello", "x"⟩] := by
  decide

/-- Amended claim C1: `valid_samples` equals the number of records whose
prediction extraction returned a non-`None` value.  Records whose
`has_command` holds JSON null are skipped entirely by line 176 (counted in
neither `valid_samples` nor `predictions`, though still in `total_samples`);
every other record — including those resolved via the DEFAULT path, which
the original claim would exclude — is appended to `valid_samples`.
`total_count` equals the number of records considered, as claimed. -/
theorem c1_amended_valid_counts_extracted_records (summary : List SummaryItem)
    (dataset : List Json) :
    (evaluate_model_predictions summary dataset).valid_samples =
      summary.countP extractedP ∧
    (evaluate_model_predictions summary dataset).total_samples = summary.length := by
  obtain ⟨h1, h2⟩ := eval_loop_lengths (build_gt_map dataset) dataset summary 0
  unfold evaluate_model_predictions
  rcases ht : eval_loop (build_gt_map dataset) dataset 0 summary with ⟨ps, gs, vs⟩
  rw [ht] at h1 h2
  simp only [ht]
  simp only at h1 h2
  by_cases hps : ps = []
  · have hcount : summary.countP extractedP = 0 := by rw [← h1, hps]; rfl
    simp [hps, hcount]
  · simp [hps, h2]

example :
    (evaluate_model_predictions
      [⟨none, "p", "\x7b\"has_command\": null\x7d"⟩] []).valid_samples = 0 ∧
    (evaluate_model_predictions
      [⟨none, "p", "\x7b\"has_command\": null\x7d"⟩] []).total_samples = 1 := by
  decide

/-- Claim C6: for every record whose prompt content itself parses as an
object carrying the boolean `has_command` flag, ground-truth resolution
returns the embedded flag — even when the prompt also appears verbatim in the
supplied dataset map with the opposite flag (EMBEDDED wins over every
dataset-based strategy). -/
theorem c6_embedded_flag_wins (gtMap : List (String × Json)) (dataset : List Json)
    (prompt : String) (pid : Int) (fs : List (String × Json)) (b : Bool)
    (hparse : json_loads prompt = some (.obj fs))
    (hflag : lookupMap fs "has_command" = some (.bool b))
    (hconflict : lookupMap gtMap prompt = some (Json.bool (!b))) :
    resolve_gt gtMap dataset prompt pid = some (Json.bool b) := by
  unfold resolve_gt
  rw [hparse]
  simp [hflag, denull]

/-- Witness for C6: the prompt embeds `has_command: true` while the dataset
map carries `false` for the very same prompt text; resolution returns the
embedded `true`. -/
theorem c6_witness :
    resolve_gt [("\x7b\"has_command\": true\x7d", Json.bool false)]
      [Json.obj [("dialog", .str "d"), ("has_command", .bool false)]]
      "\x7b\"has_command\": true\x7d" 1 = some (Json.bool true) :=
  c6_embedded_flag_wins
    [("\x7b\"has_command\": true\x7d", Json.bool false)]
    [Json.obj [("dialog", .str "d"), ("has_command", .bool false)]]
    "\x7b\"has_command\": true\x7d" 1 [("has_command", Json.bool true)] true
    (by decide) (by decide) (by decide)

/-! ## Claims C2 and C4 -/

/-- The 1-based prompt ids `[i+1, ..., i+n]` assigned to `prompts[i..i+n)`. -/
def idsFrom : Nat → Nat → List Int
  | _, 0 => []
  | i, n + 1 => ((i : Int) + 1) :: idsFrom (i + 1) n

theorem idsFrom_length : ∀ (n i : Nat), (idsFrom i n).length = n
  | 0, _ => rfl
  | n + 1, i => by simp [idsFrom, idsFrom_length n (i + 1)]

theorem idsFrom_lb : ∀ (n i : Nat) (x : Int), x ∈ idsFrom i n → (i : Int) + 1 ≤ x := by
  intro n
  induction n with
  | zero => intro i x hx; simp [idsFrom] at hx
  | succ n ih =>
      intro i x hx
      simp only [idsFrom, List.mem_cons] at hx
      rcases hx with h | h
      · omega
      · have := ih (i + 1) x h
        push_cast at this ⊢
        omega

theorem idsFrom_nodup : ∀ (n i : Nat), (idsFrom i n).Nodup := by
  intro n
  induction n with
  | zero => intro i; simp [idsFrom]
  | succ n ih =>
      intro i
      simp only [idsFrom, List.nodup_cons]
      refine ⟨fun hmem => ?_, ih (i + 1)⟩
      have := idsFrom_lb n (i + 1) _ hmem
      push_cast at this
      omega

theorem mem_idsFrom : ∀ (n i : Nat) (j : Nat), j < n → ((i + j : Nat) : Int) + 1 ∈ idsFrom i n := by
  intro n
  induction n with
  | zero => intro i j hj; omega
  | succ n ih =>
      intro i j hj
      cases j with
      | zero => simp [idsFrom]
      | succ j' =>
          simp only [idsFrom, List.mem_cons]
          right
          have := ih (i + 1) j' (by omega)
          have harith : (i + 1) + j' = i + (j' + 1) := by omega
          rw [harith] at this
          exact this

theorem insertSet_not_mem {α : Type} [DecidableEq α] (l : List α) (x : α) (h : x ∉ l) :
    insertSet l x = l ++ [x] := by
  simp [insertSet, h]

/-- Re-inserting pairwise-distinct, fresh ids into a `processed_ids` set
appends them in order. -/
theorem foldl_insertSet (entries : List SummaryEntry) :
    ∀ acc : List Int,
      (entries.map (fun e => e.prompt_id)).Nodup →
      (∀ x ∈ entries.map (fun e => e.prompt_id), x ∉ acc) →
      entries.foldl (fun acc e => insertSet acc e.prompt_id) acc =
        acc ++ entries.map (fun e => e.prompt_id) := by
  induction entries with
  | nil => intro acc _ _; simp
  | cons e rest ih =>
      intro acc hnd hfresh
      simp only [List.map_cons, List.nodup_cons] at hnd
      simp only [List.foldl_cons]
      rw [insertSet_not_mem acc e.prompt_id (hfresh e.prompt_id (by simp))]
      rw [ih (acc ++ [e.prompt_id]) hnd.2 ?_]
      · simp
      · intro x hx
        simp only [List.mem_append, List.mem_singleton]
        push_neg
        constructor
        · exact hfresh x (by simp [hx])
        · intro hxe
          exact hnd.1 (hxe ▸ hx)

/-- The stored artifact/summary text for a client response (the
`formatted_response if json_response else response` logic of the loop body,
including Python's truthiness test `if json_response:`; the re-serialization
uses `indent=2`, line 150). -/
def storedOf (response : String) : String :=
  match extract_json_from_text response with
  | some j => if j.truthy then Json.dumpsIndent j else response
  | none => response

/-- The summary entry appended for a fresh (non-skipped, non-cached) prompt. -/
def entryOf (hash client : String → String) (i : Nat) (p : String) : SummaryEntry :=
  ⟨(i : Int) + 1, p, storedOf (client p), ((i : Int) + 1, hash p)⟩

/-- The state after one fresh-run iteration (client called, artifact written,
entry appended, checkpoint saved). -/
def stepState (hash client : String → String) (i : Nat) (p : String)
    (st : LoopState) : LoopState :=
  { files := insertMap st.files ((i : Int) + 1, hash p) (storedOf (client p)),
    summaryFile := some (st.summary ++ [entryOf hash client i p]),
    summary := st.summary ++ [entryOf hash client i p],
    processed := insertSet st.processed ((i : Int) + 1),
    calls := st.calls + 1 }

/-- One iteration of the loop on a fresh output directory (no artifact index,
id not yet processed, all writes succeed): call the client and continue from
`stepState`. -/
theorem processLoop_fresh_step (hash client : String → String) (i : Nat)
    (p : String) (rest : List String) (st : LoopState)
    (hmem : ((i : Int) + 1) ∉ st.processed) :
    processLoop ⟨true, true⟩ hash client (fun _ _ => true) (fun _ _ => none) true none [] i (p :: rest) st =
      processLoop ⟨true, true⟩ hash client (fun _ _ => true) (fun _ _ => none) true none [] (i + 1) rest
        (stepState hash client i p st) := by
  rw [processLoop]
  rw [if_neg (fun hc => hmem hc.2)]
  rfl

/-- Invariant propagation for `stepState`: all processed ids stay below the
next prompt id. -/
theorem stepState_inv (hash client : String → String) (i : Nat) (p : String)
    (st : LoopState) (hinv : ∀ x ∈ st.processed, x < (i : Int) + 1) :
    ∀ x ∈ (stepState hash client i p st).processed, x < ((i + 1 : Nat) : Int) + 1 := by
  intro x hx
  simp only [stepState, insertSet] at hx
  by_cases hm : ((i : Int) + 1) ∈ st.processed
  · rw [if_pos hm] at hx
    have := hinv x hx
    push_cast
    omega
  · rw [if_neg hm] at hx
    rcases List.mem_append.mp hx with h | h
    · have := hinv x h
      push_cast
      omega
    · simp only [List.mem_singleton] at h
      push_cast
      omega

/-- A fresh run (empty artifact index, all ids new, writes succeed) appends
one entry per prompt, with ids `[i+1, ..., i+n]`, and makes one client call
per prompt. -/
theorem processLoop_fresh (hash client : String → String) :
    ∀ (prompts : List String) (i : Nat) (st : LoopState),
      (∀ x ∈ st.processed, x < (i : Int) + 1) →
      ((processLoop ⟨true, true⟩ hash client (fun _ _ => true) (fun _ _ => none) true none [] i prompts st).summary.map
          (fun e => e.prompt_id) =
        st.summary.map (fun e => e.prompt_id) ++ idsFrom i prompts.length) ∧
      (processLoop ⟨true, true⟩ hash client (fun _ _ => true) (fun _ _ => none) true none [] i prompts st).processed =
        st.processed ++ idsFrom i prompts.length := by
  intro prompts
  induction prompts with
  | nil => intro i st hinv; simp [processLoop, idsFrom]
  | cons p rest ih =>
      intro i st hinv
      have hmem : ((i : Int) + 1) ∉ st.processed := by
        intro hm
        have := hinv _ hm
        omega
      rw [processLoop_fresh_step hash client i p rest st hmem]
      obtain ⟨ih1, ih2⟩ := ih (i + 1) (stepState hash client i p st)
        (stepState_inv hash client i p st hinv)
      constructor
      · rw [ih1]
        simp only [stepState, List.map_append, entryOf, List.map_cons, List.map_nil,
          List.length_cons, idsFrom]
        simp [List.append_assoc]
      · rw [ih2]
        simp only [stepState, List.length_cons, idsFrom]
        rw [insertSet_not_mem st.processed _ hmem]
        simp [List.append_assoc]

/-- On a fresh run over at least one prompt, the on-disk checkpoint ends up
holding exactly the in-memory summary (write-through). -/
theorem processLoop_fresh_summaryFile (hash client : String → String) :
    ∀ (prompts : List String) (i : Nat) (st : LoopState), prompts ≠ [] →
      (∀ x ∈ st.processed, x < (i : Int) + 1) →
      (processLoop ⟨true, true⟩ hash client (fun _ _ => true) (fun _ _ => none) true none [] i prompts st).summaryFile =
        some (processLoop ⟨true, true⟩ hash client (fun _ _ => true) (fun _ _ => none) true none [] i prompts st).summary := by
  intro prompts
  induction prompts with
  | nil => intro i st hne _; exact absurd rfl hne
  | cons p rest ih =>
      intro i st _ hinv
      have hmem : ((i : Int) + 1) ∉ st.processed := by
        intro hm
        have := hinv _ hm
        omega
      rw [processLoop_fresh_step hash client i p rest st hmem]
      cases rest with
      | nil => rfl
      | cons r rs =>
          exact ih (i + 1) (stepState hash client i p st) (by simp)
            (stepState_inv hash client i p st hinv)

/-- When every id of the prompt range is already in `processed_ids`, the loop
in resume mode is a pure no-op: no client calls, no state change. -/
theorem processLoop_skip (hash client : String → String) (sv : Bool)
    (aOk : Int → String → Bool) (aFail : Int → String → Option String)
    (sOk : Bool) (fCkpt : Option (List SummaryEntry))
    (existing : List (String × (Int × String))) :
    ∀ (prompts : List String) (i : Nat) (st : LoopState),
      (∀ x ∈ idsFrom i prompts.length, x ∈ st.processed) →
      processLoop ⟨true, sv⟩ hash client aOk aFail sOk fCkpt existing i prompts st = st := by
  intro prompts
  induction prompts with
  | nil => intro i st _; rfl
  | cons p rest ih =>
      intro i st hmem
      have hhead : ((i : Int) + 1) ∈ st.processed := hmem _ (by simp [idsFrom])
      rw [processLoop]
      rw [if_pos ⟨rfl, hhead⟩]
      refine ih (i + 1) st (fun x hx => hmem x ?_)
      simp only [List.length_cons, idsFrom, List.mem_cons]
      right
      exact hx


/-- Claim C2: running the batch processor a second time with resume enabled
over an untouched output directory (the artifact files and `summary.json`
left by a completed first run) makes zero additional client calls and leaves
the run summary — in-memory list, on-disk checkpoint, artifact files and the
returned counts — identical to the first run's. -/
theorem c2_second_resumed_run_is_noop (hash client : String → String)
    (prompts : List String) (run1 run2 : LoopState × RunResult)
    (h1 : run1 = process_prompts ⟨true, true⟩ hash client (fun _ _ => true) (fun _ _ => none) true none
      prompts ⟨[], none⟩)
    (h2 : run2 = process_prompts ⟨true, true⟩ hash client (fun _ _ => true) (fun _ _ => none) true none
      prompts ⟨run1.1.files, run1.1.summaryFile⟩) :
    run2.1.calls = 0 ∧ run2.1.summary = run1.1.summary ∧
    run2.1.summaryFile = run1.1.summaryFile ∧ run2.1.files = run1.1.files ∧
    run2.2 = run1.2 := by
  subst h2
  subst h1
  by_cases hne : prompts = []
  · subst hne
    exact ⟨rfl, rfl, rfl, rfl, rfl⟩
  · obtain ⟨A1, A2⟩ := processLoop_fresh hash client prompts 0 ⟨[], none, [], [], 0⟩
      (by simp)
    have A3 := processLoop_fresh_summaryFile hash client prompts 0
      ⟨[], none, [], [], 0⟩ hne (by simp)
    simp only [List.map_nil, List.nil_append] at A1 A2
    set stL := processLoop ⟨true, true⟩ hash client (fun _ _ => true) (fun _ _ => none) true none [] 0 prompts
      ⟨[], none, [], [], 0⟩ with hstL
    have hnonempty : stL.summary ≠ [] := by
      intro h0
      have hlen := congrArg List.length A1
      rw [h0] at hlen
      simp only [List.map_nil, List.length_nil] at hlen
      rw [idsFrom_length] at hlen
      exact hne (List.length_eq_zero.mp hlen.symm)
    have hrun1 : process_prompts ⟨true, true⟩ hash client (fun _ _ => true) (fun _ _ => none) true none
        prompts ⟨[], none⟩ = (save_summary true none stL, ⟨prompts.length, prompts.length⟩) := by
      have g1 : get_existing_responses ([] : List ((Int × String) × String)) = [] := rfl
      simp only [process_prompts, g1, Option.getD_none, List.foldl_nil, if_true,
        eq_self_iff_true, true_and, ← hstL]
      rw [if_pos hnonempty]
      have hplen : (save_summary true none stL).processed = stL.processed := rfl
      rw [hplen, A2, idsFrom_length]
    have hproc0 : stL.summary.foldl (fun acc e => insertSet acc e.prompt_id) [] =
        idsFrom 0 prompts.length := by
      rw [foldl_insertSet stL.summary [] (by rw [A1]; exact idsFrom_nodup _ _)
        (by intro x _; simp)]
      rw [A1]
      rfl
    have hskip := processLoop_skip hash client true (fun _ _ => true)
      (fun _ _ => none) true none
      (get_existing_responses stL.files) prompts 0
      ⟨stL.files, some stL.summary, stL.summary, idsFrom 0 prompts.length, 0⟩
      (fun x hx => hx)
    have hrun2 : process_prompts ⟨true, true⟩ hash client (fun _ _ => true)
        (fun _ _ => none) true none prompts
        ⟨(process_prompts ⟨true, true⟩ hash client (fun _ _ => true) (fun _ _ => none) true none
            prompts ⟨[], none⟩).1.files,
         (process_prompts ⟨true, true⟩ hash client (fun _ _ => true) (fun _ _ => none) true none
            prompts ⟨[], none⟩).1.summaryFile⟩ =
        (⟨stL.files, some stL.summary, stL.summary, idsFrom 0 prompts.length, 0⟩,
         ⟨prompts.length, prompts.length⟩) := by
      rw [hrun1]
      have hfiles2 : ((save_summary true none stL,
          (⟨prompts.length, prompts.length⟩ : RunResult)) :
          LoopState × RunResult).1.files = stL.files := rfl
      have hsf2 : ((save_summary true none stL,
          (⟨prompts.length, prompts.length⟩ : RunResult)) :
          LoopState × RunResult).1.summaryFile = some stL.summary := rfl
      rw [hfiles2, hsf2]
      simp only [process_prompts, Option.getD_some, if_true, eq_self_iff_true,
        true_and, hproc0]
      rw [hskip]
      rw [if_pos hnonempty]
      have hp2 : (save_summary true none
          (⟨stL.files, some stL.summary, stL.summary, idsFrom 0 prompts.length, 0⟩ :
            LoopState)).processed = idsFrom 0 prompts.length := rfl
      rw [hp2, idsFrom_length]
      rfl
    refine ⟨?_, ?_, ?_, ?_, ?_⟩
    · rw [hrun2]
    · rw [hrun2, hrun1]
      rfl
    · rw [hrun2, hrun1]
      rfl
    · rw [hrun2, hrun1]
      rfl
    · rw [hrun2, hrun1]

/-- Witness for C2 at a concrete one-prompt batch. -/
theorem c2_witness :
    (process_prompts ⟨true, true⟩ (fun _ => "h") (fun _ => "r") (fun _ _ => true) (fun _ _ => none) true none
        ["a"]
        ⟨(process_prompts ⟨true, true⟩ (fun _ => "h") (fun _ => "r") (fun _ _ => true)
            (fun _ _ => none) true none ["a"] ⟨[], none⟩).1.files,
         (process_prompts ⟨true, true⟩ (fun _ => "h") (fun _ => "r") (fun _ _ => true)
            (fun _ _ => none) true none ["a"] ⟨[], none⟩).1.summaryFile⟩).1.calls = 0 ∧
    (process_prompts ⟨true, true⟩ (fun _ => "h") (fun _ => "r") (fun _ _ => true) (fun _ _ => none) true none
        ["a"]
        ⟨(process_prompts ⟨true, true⟩ (fun _ => "h") (fun _ => "r") (fun _ _ => true)
            (fun _ _ => none) true none ["a"] ⟨[], none⟩).1.files,
         (process_prompts ⟨true, true⟩ (fun _ => "h") (fun _ => "r") (fun _ _ => true)
            (fun _ _ => none) true none ["a"] ⟨[], none⟩).1.summaryFile⟩).1.summary =
      (process_prompts ⟨true, true⟩ (fun _ => "h") (fun _ => "r") (fun _ _ => true)
        (fun _ _ => none) true none ["a"] ⟨[], none⟩).1.summary :=
  ⟨(c2_second_resumed_run_is_noop (fun _ => "h") (fun _ => "r") ["a"] _ _ rfl rfl).1,
   (c2_second_resumed_run_is_noop (fun _ => "h") (fun _ => "r") ["a"] _ _ rfl rfl).2.1⟩

/-- Amended claim C4: disk-write failures are caught and logged, never
propagated.  A failed `_save_summary` write returns normally with all
in-memory state (summary, processed ids, call count, artifact files) intact,
leaving the on-disk checkpoint in an unspecified state — previous content if
`open` failed, a truncated file that a later load treats as absent if
`json.dump` failed.  A failed artifact write is caught by the per-item
handler: the item's processed result is dropped from the summary (the client
call has already been made), the artifact file may be left absent or with
partial content, and the batch continues with the next prompt. -/
theorem c4_amended_write_failures_swallowed :
    (∀ (fCkpt : Option (List SummaryEntry)) (st : LoopState),
       (save_summary false fCkpt st).summary = st.summary ∧
       (save_summary false fCkpt st).processed = st.processed ∧
       (save_summary false fCkpt st).files = st.files ∧
       (save_summary false fCkpt st).calls = st.calls ∧
       (save_summary false fCkpt st).summaryFile = fCkpt) ∧
    (∀ (s : Settings) (hash client : String → String) (aOk : Int → String → Bool)
       (aFail : Int → String → Option String) (sOk : Bool)
       (fCkpt : Option (List SummaryEntry))
       (existing : List (String × (Int × String))) (i : Nat)
       (prompt : String) (rest : List String) (st : LoopState),
       ¬(s.resume_from_checkpoint = true ∧ ((i : Int) + 1) ∈ st.processed) →
       cached_response s.resume_from_checkpoint existing st.files (hash prompt) = none →
       aOk ((i : Int) + 1) (hash prompt) = false →
       processLoop s hash client aOk aFail sOk fCkpt existing i (prompt :: rest) st =
         processLoop s hash client aOk aFail sOk fCkpt existing (i + 1) rest
           (let stc : LoopState := { st with calls := st.calls + 1 }
            match aFail ((i : Int) + 1) (hash prompt) with
            | some part =>
                { stc with
                  files := insertMap stc.files ((i : Int) + 1, hash prompt) part }
            | none => stc)) := by
  constructor
  · intro fCkpt st
    exact ⟨rfl, rfl, rfl, rfl, rfl⟩
  · intro s hash client aOk aFail sOk fCkpt existing i prompt rest st h1 h2 h3
    rw [processLoop]
    rw [if_neg h1]
    simp only [h2, h3]
    cases aFail ((i : Int) + 1) (hash prompt) <;> rfl

/-- Witness for the amended C4: a concrete failed summary write and a
concrete failed artifact write, both continuing normally. -/
theorem c4_amended_witness :
    ((save_summary false none ⟨[], none, [], [], 0⟩).summary = [] ∧
     (save_summary false none ⟨[], none, [], [], 0⟩).processed = [] ∧
     (save_summary false none ⟨[], none, [], [], 0⟩).files = [] ∧
     (save_summary false none ⟨[], none, [], [], 0⟩).calls = 0 ∧
     (save_summary false none ⟨[], none, [], [], 0⟩).summaryFile = none) ∧
    processLoop ⟨true, true⟩ (fun _ => "h") (fun _ => "r") (fun _ _ => false)
        (fun _ _ => none) true none [] 0 ["p"] ⟨[], none, [], [], 0⟩ =
      processLoop ⟨true, true⟩ (fun _ => "h") (fun _ => "r") (fun _ _ => false)
        (fun _ _ => none) true none [] 1 [] ⟨[], none, [], [], 1⟩ := by
  obtain ⟨w1, w2⟩ := c4_amended_write_failures_swallowed
  refine ⟨w1 none ⟨[], none, [], [], 0⟩, ?_⟩
  have h := w2 ⟨true, true⟩ (fun _ => "h") (fun _ => "r") (fun _ _ => false)
    (fun _ _ => none) true none [] 0 "p" [] ⟨[], none, [], [], 0⟩ (by decide) rfl rfl
  exact h

/-- Counterexample to C4 as stated: with the artifact write failing for
prompt 1 (leaving a partial artifact on disk) and succeeding for prompt 2,
`process_prompts` neither raises nor stops — it continues to prompt 2 (both
client calls happen) and returns normally with prompt 1's processed result
silently missing from the summary. -/
theorem c4_counterexample_failed_write_continues :
    (process_prompts ⟨true, true⟩ (fun _ => "h") (fun _ => "r")
        (fun pid _ => pid != 1) (fun _ _ => some "\x7b\"res") true none
        ["a", "b"] ⟨[], none⟩).1.summary.map
      (fun e => e.prompt_id) = [2] ∧
    (process_prompts ⟨true, true⟩ (fun _ => "h") (fun _ => "r")
        (fun pid _ => pid != 1) (fun _ _ => some "\x7b\"res") true none
        ["a", "b"] ⟨[], none⟩).1.calls = 2 ∧
    (process_prompts ⟨true, true⟩ (fun _ => "h") (fun _ => "r")
        (fun pid _ => pid != 1) (fun _ _ => some "\x7b\"res") true none
        ["a", "b"] ⟨[], none⟩).2 = ⟨1, 2⟩ := by
  decide
